import Mathlib

/-!
Verification development for the Eaglercraft WebSocket-to-TCP proxy.

The repository ships several proxy variants.  The principal one (the first
document of `src/unnamed/part_002`, an opcode-framed WebSocket-to-TCP relay,
whose session/heartbeat/shutdown code is textually shared with the first
document of `src/index.js`) is embedded here as an explicit per-session state
machine driven by a trace of socket events.  The buffering WebSocket-to-
WebSocket variant (second document of `src/unnamed/part_002`) and the logging
variant (`src/unnamed/part_000`) are embedded separately where a claim cites
them.  Bytes are modelled as natural numbers; frames and payloads as lists of
bytes, their content uninterpreted exactly as in the source.
-/

namespace Proxy

/-- Close codes from the CONSTANTS object of `src/index.js` lines 20-24 /
`src/unnamed/part_002` lines 19-23. -/
def CLOSE_NORMAL : Nat := 1000

/-- Internal-error WebSocket close code from the same CONSTANTS object. -/
def CLOSE_INTERNAL_ERROR : Nat := 1011

/-- Heartbeat period in milliseconds, from CONSTANTS.HEARTBEAT_INTERVAL. -/
def HEARTBEAT_INTERVAL : Nat := 30000

/-- Outcome of the client WebSocket message handler of the opcode-framed
relay (`src/unnamed/part_002`, first document, lines 128-140): either a
payload is written to the backend TCP socket (`backendTcp.write(message.slice(1))`),
or a warning is logged for an unknown opcode, or the frame is silently
ignored (the outer `message.length > 0` test fails on an empty buffer). -/
inductive ClientMsgAction
  | write (payload : List Nat)
  | warnUnknown (opcode : Nat)
  | ignored
  deriving DecidableEq, Repr

/-- The unwrap half of the Framer, embedded from the body of
`clientWs.on('message')` in `src/unnamed/part_002` lines 128-140: an empty
buffer fails the `message.length > 0` guard and nothing happens; otherwise
`message[0]` is the opcode, and only opcode 0x01 yields a backend write of
`message.slice(1)` (the rest of the buffer); any other opcode logs a
warning. -/
def handleClientMessage : List Nat → ClientMsgAction
  | [] => .ignored
  | opcode :: rest => if opcode = 0x01 then .write rest else .warnUnknown opcode

/-- The wrap half of the Framer, embedded from the body of
`backendTcp.on('data')` in `src/unnamed/part_002` lines 143-151:
`Buffer.concat([Buffer.from([0x02]), data])`. -/
def wrap (data : List Nat) : List Nat := [0x02] ++ data

/-- WebSocket readyState of the accepted client socket.  A server-accepted
socket starts OPEN; `close()` moves it to CLOSING; the `close` event means
CLOSED. -/
inductive WsState
  | OPEN
  | CLOSING
  | CLOSED
  deriving DecidableEq, Repr

/-- Observable state of one relay session of the opcode-framed variant
(`src/unnamed/part_002` first document, connection handler lines 109-185;
the close/error and heartbeat handlers are textually identical in
`src/index.js` lines 111-173).  Besides the socket states the record keeps
the externally visible effects: the sequence of payloads written to the
backend, the sequence of frames sent to the client, the first
`clientWs.close(code, reason)` call issued, call counters for
`clientWs.close` and `backendTcp.destroy` (to express exactly-once /
no-double-release), the heartbeat flag `isAlive`, and the number of
unknown-opcode warnings logged. -/
structure Session where
  clientState : WsState
  clientCloseCode : Option (Nat × String)
  clientCloseCalls : Nat
  backendConnected : Bool
  backendDestroyed : Bool
  backendDestroyCalls : Nat
  backendWrites : List (List Nat)
  clientSends : List (List Nat)
  isAlive : Bool
  warnCount : Nat
  deriving DecidableEq, Repr

/-- Session state right after `wss.on('connection')` runs: client socket
open, `clientWs.isAlive = true` (line 117), backend TCP connection attempt
in flight (`net.createConnection`, line 115), nothing destroyed, no traffic
yet. -/
def initSession : Session :=
  { clientState := .OPEN
    clientCloseCode := none
    clientCloseCalls := 0
    backendConnected := false
    backendDestroyed := false
    backendDestroyCalls := 0
    backendWrites := []
    clientSends := []
    isAlive := true
    warnCount := 0 }

/-- Socket events a session can receive, one constructor per event handler
registered in the connection handler. -/
inductive SessionEvent
  | backendConnect
  | clientMessage (m : List Nat)
  | backendData (d : List Nat)
  | backendClose
  | backendError
  | clientClose (code : Nat) (reason : String)
  | clientError
  | pong
  deriving DecidableEq, Repr

/-- One step of the session state machine, mirroring the event handlers of
`src/unnamed/part_002` lines 109-185.  Crucial fidelity points:
the `clientWs.on('message')` and `backendTcp.on('data')` listeners are
attached only inside `backendTcp.on('connect')` (lines 121-154), so those
events have no effect before the connect event; the backend write is guarded
by `!backendTcp.destroyed` (line 132); the client send is guarded by
`clientWs.readyState === WebSocket.OPEN` (line 148); the close/error
handlers (lines 156-184) guard `clientWs.close` by readyState OPEN and
`backendTcp.destroy` by `!backendTcp.destroyed`; a Node socket that has
emitted `close` has `destroyed = true`. -/
def step (s : Session) : SessionEvent → Session
  | .backendConnect => { s with backendConnected := true }
  | .clientMessage m =>
      if s.backendConnected then
        match handleClientMessage m with
        | .write payload =>
            if s.backendDestroyed then s
            else { s with backendWrites := s.backendWrites ++ [payload] }
        | .warnUnknown _ => { s with warnCount := s.warnCount + 1 }
        | .ignored => s
      else s
  | .backendData d =>
      if s.backendConnected then
        if s.clientState = .OPEN then { s with clientSends := s.clientSends ++ [wrap d] }
        else s
      else s
  | .backendClose =>
      if s.clientState = .OPEN then
        { s with backendDestroyed := true
                 clientState := .CLOSING
                 clientCloseCode := some (CLOSE_NORMAL, "Backend server disconnected.")
                 clientCloseCalls := s.clientCloseCalls + 1 }
      else { s with backendDestroyed := true }
  | .backendError =>
      if s.clientState = .OPEN then
        { s with clientState := .CLOSING
                 clientCloseCode := some (CLOSE_INTERNAL_ERROR, "Backend connection error.")
                 clientCloseCalls := s.clientCloseCalls + 1 }
      else s
  | .clientClose _code _reason =>
      if s.backendDestroyed then { s with clientState := .CLOSED }
      else { s with clientState := .CLOSED
                    backendDestroyed := true
                    backendDestroyCalls := s.backendDestroyCalls + 1 }
  | .clientError =>
      if s.backendDestroyed then s
      else { s with backendDestroyed := true
                    backendDestroyCalls := s.backendDestroyCalls + 1 }
  | .pong => { s with isAlive := true }

/-- Run a session from its initial state over a trace of events. -/
def run (events : List SessionEvent) : Session :=
  events.foldl step initSession

/-- Observable state of one session of the buffering WebSocket-to-WebSocket
variant (`src/unnamed/part_002`, second document, lines 294-369):
`backendReady` is `falixServer.readyState === WebSocket.OPEN`,
`messageBuffer` is the array of client messages held until the backend is
ready, `backendSends` the sequence of `falixServer.send` calls in order. -/
structure BufSession where
  backendReady : Bool
  messageBuffer : List (List Nat)
  backendSends : List (List Nat)
  deriving DecidableEq, Repr

/-- Events of the buffering variant relevant to the client-to-backend
direction: the backend `open` event and a client `message` event. -/
inductive BufEvent
  | backendOpenEvt
  | clientMessage (m : List Nat)
  deriving DecidableEq, Repr

/-- One step of the buffering variant.  On `falixServer.on('open')`
(lines 313-321) the readyState becomes OPEN and the buffer is flushed with
`while (messageBuffer.length > 0) falixServer.send(messageBuffer.shift())`,
i.e. in FIFO order; on `ws.on('message')` (lines 346-354) the message is
sent directly when the backend is open and pushed onto `messageBuffer`
otherwise. -/
def bufStep (s : BufSession) : BufEvent → BufSession
  | .backendOpenEvt =>
      { backendReady := true
        messageBuffer := []
        backendSends := s.backendSends ++ s.messageBuffer }
  | .clientMessage m =>
      if s.backendReady then { s with backendSends := s.backendSends ++ [m] }
      else { s with messageBuffer := s.messageBuffer ++ [m] }

/-- Run the buffering variant from its initial state (backend connecting,
empty buffer, nothing sent). -/
def bufRun (events : List BufEvent) : BufSession :=
  events.foldl bufStep { backendReady := false, messageBuffer := [], backendSends := [] }

/-- Client message handler of `src/unnamed/part_000` lines 96-103: when
`falixServer.readyState === WebSocket.OPEN` the message is forwarded,
otherwise it is dropped and a warning line is logged.  Returns the new list
of forwarded messages and whether the drop was logged. -/
def forwardClientMessage (backendReady : Bool) (sends : List (List Nat)) (m : List Nat) :
    List (List Nat) × Bool :=
  if backendReady then (sends ++ [m], false) else (sends, true)

/-- How the backend behaves when the pre-flight probe socket of
`checkBackendServer` tries to connect: the cases distinguished by
`src/index.js` lines 58-88. -/
inductive ProbeOutcome
  | connected
  | refused
  | notFound
  | timedOut
  | otherError (msg : String)
  deriving DecidableEq, Repr

/-- Result of one run of `checkBackendServer`: the settled promise (`.ok`
for resolve, `.error reason` for reject), whether `socket.destroy()` was
called (the timeout path, line 64-66) and whether `socket.end()` was called
(the success path, line 70). -/
structure ProbeResult where
  promise : Except String Unit
  socketDestroyed : Bool
  socketEnded : Bool
  deriving Repr

/-- Timeout passed to `socket.setTimeout` in `checkBackendServer`
(`src/index.js` line 65), in milliseconds. -/
def PROBE_TIMEOUT_MS : Nat := 5000

/-- Embeds `checkBackendServer` of `src/index.js` lines 58-88 as a function
of the backend's behaviour: on connect it ends the socket and resolves; on
timeout it destroys the socket and rejects; on an error it rejects with the
reason chosen by the `err.code` dispatch (ECONNREFUSED, ENOTFOUND, other). -/
def checkBackendServer : ProbeOutcome → ProbeResult
  | .connected =>
      { promise := .ok (), socketDestroyed := false, socketEnded := true }
  | .refused =>
      { promise := .error ("Connection refused. Is the server running? Is the IP/port correct?")
        socketDestroyed := false, socketEnded := false }
  | .notFound =>
      { promise := .error ("Address not found. Check the hostname for typos.")
        socketDestroyed := false, socketEnded := false }
  | .timedOut =>
      { promise := .error ("Connection timed out after 5 seconds.")
        socketDestroyed := true, socketEnded := false }
  | .otherError msg =>
      { promise := .error ("An unexpected network error occurred: " ++ msg)
        socketDestroyed := false, socketEnded := false }

/-- Result of `startServer`: how many times the probe ran, whether
`server.listen(PORT, ...)` was reached, and whether the process exited
fatally (`logger.fatal` calls `process.exit(1)`). -/
structure StartResult where
  probeCalls : Nat
  bound : Bool
  fatalExit : Bool
  deriving DecidableEq, Repr

/-- Embeds `startServer` of `src/index.js` lines 176-189: it awaits exactly
one `checkBackendServer()` call; on resolve it calls `server.listen(PORT)`;
on reject the catch block calls `logger.fatal`, which exits the process, so
the listening port is never bound and the probe is never retried. -/
def startServer (o : ProbeOutcome) : StartResult :=
  match (checkBackendServer o).promise with
  | .ok _ => { probeCalls := 1, bound := true, fatalExit := false }
  | .error _ => { probeCalls := 1, bound := false, fatalExit := true }

/-- Result of one heartbeat sweep over the live client set: the clients
still in the set afterwards (with their updated `isAlive` flags), the ids
terminated by `ws.terminate()`, and the ids pinged. -/
structure SweepResult where
  survivors : List (Nat × Bool)
  terminated : List Nat
  pinged : List Nat
  deriving DecidableEq, Repr

/-- Embeds the heartbeat interval body of `src/index.js` lines 167-173:
`wss.clients.forEach((ws) => { if (ws.isAlive === false) return ws.terminate();
ws.isAlive = false; ws.ping(() => {}); })`.  A client is a pair of an id and
its `isAlive` flag; a terminated client leaves the live set. -/
def sweep : List (Nat × Bool) → SweepResult
  | [] => { survivors := [], terminated := [], pinged := [] }
  | c :: rest =>
      let r := sweep rest
      if c.2 = false then { r with terminated := c.1 :: r.terminated }
      else { r with survivors := (c.1, false) :: r.survivors, pinged := c.1 :: r.pinged }

/-- Embeds the pong handler `clientWs.on('pong', () => { clientWs.isAlive =
true; })` of `src/index.js` lines 120-121, lifted to the live client set:
the matching client's flag is set back to true. -/
def pongHandler (clients : List (Nat × Bool)) (id : Nat) : List (Nat × Bool) :=
  clients.map (fun c => if c.1 = id then (c.1, true) else c)

/-- Observable effects of `gracefulShutdown` of `src/index.js` lines
191-200: `clearInterval(heartbeat)`; `wss.close(...)` / `server.close(...)`
stop new connections from being accepted; the nested callbacks end in
`process.exit(0)`.  The handler body contains no per-session action at all,
so the sessions asked to close and the sessions forcibly terminated are
recorded as (necessarily empty) lists of session ids. -/
structure ShutdownResult where
  heartbeatCleared : Bool
  acceptingStopped : Bool
  sessionsAskedToClose : List Nat
  forcedTerminations : List Nat
  exited : Bool
  deriving DecidableEq, Repr

/-- Embeds `gracefulShutdown` of `src/index.js` lines 191-200 as a function
of the set of live session ids at the moment the signal arrives.  The body
is `clearInterval(heartbeat); wss.close(() => { server.close(() => {
process.exit(0); }); });` — it never touches `liveSessions`: no session is
asked to close, none is force-terminated, and there is no drain deadline. -/
def gracefulShutdown (_signal : String) (_liveSessions : List Nat) : ShutdownResult :=
  { heartbeatCleared := true
    acceptingStopped := true
    sessionsAskedToClose := []
    forcedTerminations := []
    exited := true }

/-! Helper lemmas about the session state machine, shared by several
theorems below. -/

/-- A destroyed backend socket stays destroyed across any event. -/
lemma backendDestroyed_step_mono {s : Session} (e : SessionEvent)
    (h : s.backendDestroyed = true) : (step s e).backendDestroyed = true := by
  cases e <;> simp only [step] <;> (repeat' split) <;> simp_all

/-- A destroyed backend socket stays destroyed across any trace. -/
lemma backendDestroyed_foldl_mono {s : Session} (events : List SessionEvent)
    (h : s.backendDestroyed = true) : (events.foldl step s).backendDestroyed = true := by
  induction events generalizing s with
  | nil => exact h
  | cons e rest ih => exact ih (backendDestroyed_step_mono e h)

/-- A client socket that has left the OPEN state never returns to it. -/
lemma clientNotOpen_step_mono {s : Session} (e : SessionEvent)
    (h : s.clientState ≠ .OPEN) : (step s e).clientState ≠ .OPEN := by
  cases e <;> simp only [step] <;> (repeat' split) <;> simp_all

/-- A client socket that has left the OPEN state never returns to it, over a
trace. -/
lemma clientNotOpen_foldl_mono {s : Session} (events : List SessionEvent)
    (h : s.clientState ≠ .OPEN) : (events.foldl step s).clientState ≠ .OPEN := by
  induction events generalizing s with
  | nil => exact h
  | cons e rest ih => exact ih (clientNotOpen_step_mono e h)

/-- A client close event always leaves the backend destroyed. -/
lemma step_clientClose_destroyed (s : Session) (c : Nat) (r : String) :
    (step s (.clientClose c r)).backendDestroyed = true := by
  simp only [step]; split <;> simp_all

/-- A client error event always leaves the backend destroyed. -/
lemma step_clientError_destroyed (s : Session) :
    (step s .clientError).backendDestroyed = true := by
  simp only [step]; split <;> simp_all

/-- A backend close event always leaves the client socket out of OPEN. -/
lemma step_backendClose_notOpen (s : Session) :
    (step s .backendClose).clientState ≠ .OPEN := by
  simp only [step]; split <;> simp_all

/-- A backend error event always leaves the client socket out of OPEN. -/
lemma step_backendError_notOpen (s : Session) :
    (step s .backendError).clientState ≠ .OPEN := by
  simp only [step]; split <;> simp_all

/-- Counter invariant: `backendTcp.destroy()` has been called at most once,
and only on a socket now destroyed; `clientWs.close(...)` has been called at
most once, and only on a socket now out of OPEN. -/
def countersOK (s : Session) : Prop :=
  s.backendDestroyCalls ≤ (if s.backendDestroyed then 1 else 0) ∧
  s.clientCloseCalls ≤ (if s.clientState = .OPEN then 0 else 1)

/-- Every event preserves the counter invariant. -/
lemma countersOK_step {s : Session} (e : SessionEvent) (h : countersOK s) :
    countersOK (step s e) := by
  obtain ⟨h1, h2⟩ := h
  unfold countersOK
  cases hD : s.backendDestroyed <;> cases hC : s.clientState
  all_goals rw [hD] at h1
  all_goals rw [hC] at h2
  all_goals simp at h1 h2
  all_goals cases e
  all_goals simp only [step, hD, hC]
  all_goals (repeat' split)
  all_goals refine ⟨?_, ?_⟩
  all_goals simp_all

/-- Every trace preserves the counter invariant. -/
lemma countersOK_foldl {s : Session} (events : List SessionEvent) (h : countersOK s) :
    countersOK (events.foldl step s) := by
  induction events generalizing s with
  | nil => exact h
  | cons e rest ih => exact ih (countersOK_step e h)

/-- If the trace contains a client close or client error event, the backend
socket is destroyed at the end of the trace. -/
lemma destroyed_of_clientTerminal {s : Session} (events : List SessionEvent)
    (h : (∃ c r, SessionEvent.clientClose c r ∈ events) ∨ SessionEvent.clientError ∈ events) :
    (events.foldl step s).backendDestroyed = true := by
  induction events generalizing s with
  | nil =>
    rcases h with ⟨c, r, hc⟩ | hc <;> simp at hc
  | cons e rest ih =>
    rcases h with ⟨c, r, hc⟩ | hc
    · rcases List.mem_cons.mp hc with he | hm
      · subst he
        exact backendDestroyed_foldl_mono rest (step_clientClose_destroyed s c r)
      · exact ih (Or.inl ⟨c, r, hm⟩)
    · rcases List.mem_cons.mp hc with he | hm
      · subst he
        exact backendDestroyed_foldl_mono rest (step_clientError_destroyed s)
      · exact ih (Or.inr hm)

/-- If the trace contains a backend close or backend error event, the client
socket is out of OPEN at the end of the trace. -/
lemma notOpen_of_backendTerminal {s : Session} (events : List SessionEvent)
    (h : SessionEvent.backendClose ∈ events ∨ SessionEvent.backendError ∈ events) :
    (events.foldl step s).clientState ≠ .OPEN := by
  induction events generalizing s with
  | nil => rcases h with hc | hc <;> simp at hc
  | cons e rest ih =>
    rcases h with hc | hc
    · rcases List.mem_cons.mp hc with he | hm
      · subst he
        exact clientNotOpen_foldl_mono rest (step_backendClose_notOpen s)
      · exact ih (Or.inl hm)
    · rcases List.mem_cons.mp hc with he | hm
      · subst he
        exact clientNotOpen_foldl_mono rest (step_backendError_notOpen s)
      · exact ih (Or.inr hm)

/-- Every event preserves the invariant that a CLOSED client socket implies
a destroyed backend socket. -/
lemma closedImpDestroyed_step {s : Session} (e : SessionEvent)
    (h : s.clientState = .CLOSED → s.backendDestroyed = true) :
    (step s e).clientState = .CLOSED → (step s e).backendDestroyed = true := by
  cases e <;> simp only [step] <;> (repeat' split) <;> simp_all

/-- Over any trace from the initial state, a CLOSED client socket implies a
destroyed backend socket. -/
lemma closedImpDestroyed_foldl {s : Session} (events : List SessionEvent)
    (h : s.clientState = .CLOSED → s.backendDestroyed = true) :
    (events.foldl step s).clientState = .CLOSED →
      (events.foldl step s).backendDestroyed = true := by
  induction events generalizing s with
  | nil => exact h
  | cons e rest ih => exact ih (closedImpDestroyed_step e h)

/-- A duplicate client close event is a state no-op. -/
lemma step_clientClose_idem (s : Session) (c c' : Nat) (r r' : String) :
    step (step s (.clientClose c r)) (.clientClose c' r') = step s (.clientClose c r) := by
  cases hD : s.backendDestroyed <;> simp [step, hD]

/-- A duplicate client error event is a state no-op. -/
lemma step_clientError_idem (s : Session) :
    step (step s .clientError) .clientError = step s .clientError := by
  cases hD : s.backendDestroyed <;> simp [step, hD]

/-- A duplicate backend close event is a state no-op. -/
lemma step_backendClose_idem (s : Session) :
    step (step s .backendClose) .backendClose = step s .backendClose := by
  cases hC : s.clientState <;> simp [step, hC]

/-- A duplicate backend error event is a state no-op. -/
lemma step_backendError_idem (s : Session) :
    step (step s .backendError) .backendError = step s .backendError := by
  cases hC : s.clientState <;> simp [step, hC]

/-- While the backend is not yet open, the buffering variant appends every
client message to `messageBuffer`, in order, and sends nothing. -/
lemma bufFold_notReady (ms : List (List Nat)) :
    ∀ buf sends : List (List Nat),
      (ms.map BufEvent.clientMessage).foldl bufStep
          { backendReady := false, messageBuffer := buf, backendSends := sends } =
        { backendReady := false, messageBuffer := buf ++ ms, backendSends := sends } := by
  induction ms with
  | nil => intro buf sends; simp
  | cons m ms ih => intro buf sends; simp [bufStep, ih]

/-- Once the backend is open, the buffering variant sends every client
message directly, in order, leaving the buffer untouched. -/
lemma bufFold_ready (ns : List (List Nat)) :
    ∀ buf sends : List (List Nat),
      (ns.map BufEvent.clientMessage).foldl bufStep
          { backendReady := true, messageBuffer := buf, backendSends := sends } =
        { backendReady := true, messageBuffer := buf, backendSends := sends ++ ns } := by
  induction ns with
  | nil => intro buf sends; simp
  | cons n ns ih => intro buf sends; simp [bufStep, ih]

/-- Per-client survivors/terminated/pinged characterisation of one heartbeat
sweep: a client with `isAlive = false` is terminated and leaves the live
set; a client with `isAlive = true` survives with its flag cleared and is
pinged. -/
lemma sweep_spec (cs : List (Nat × Bool)) :
    (sweep cs).survivors = (cs.filter (fun c => c.2)).map (fun c => (c.1, false)) ∧
    (sweep cs).terminated = (cs.filter (fun c => !c.2)).map (fun c => c.1) ∧
    (sweep cs).pinged = (cs.filter (fun c => c.2)).map (fun c => c.1) := by
  induction cs with
  | nil => simp [sweep]
  | cons c rest ih =>
    obtain ⟨ih1, ih2, ih3⟩ := ih
    cases hc : c.2 <;> simp [sweep, hc, ih1, ih2, ih3]

/-! Theorems settling the claims. -/

/-- C1 counterexample: the claim says a client frame received while the
session is Connecting is delivered to the backend exactly once after the
backend connects (scenario: frame 0x01 0x0A 0x0B, then connect, backend
receives 0x0A 0x0B).  In the opcode-framed relay the client message
listener is attached only inside the `backendTcp.on('connect')` handler
(`src/unnamed/part_002` lines 121-154), so a message event fired before the
connect event has no listener and is lost: after the connect the backend
write sequence is empty, and a frame received after the connect flows while
the earlier one is still missing — the pre-connect payload is dropped, not
delivered. -/
theorem claim_C1_counterexample :
    (run [SessionEvent.clientMessage [0x01, 0x0A, 0x0B], SessionEvent.backendConnect]).backendWrites
        = [] ∧
    (run [SessionEvent.clientMessage [0x01, 0x0A, 0x0B], SessionEvent.backendConnect,
          SessionEvent.clientMessage [0x01, 0x0C]]).backendWrites = [[0x0C]] :=
  ⟨rfl, rfl⟩

/-- C1 amended: in the buffering variant (`src/unnamed/part_002`, second
document), every client payload received while the backend connection is in
flight is appended to `messageBuffer` and delivered to the backend exactly
once, in FIFO order of receipt, when the backend `open` event flushes the
buffer, before any payload received after the open event; no buffered
payload is dropped or reordered (that variant forwards payloads verbatim,
without Framer unwrapping).  In the opcode-framed TCP variant, by contrast,
payloads received before the connect event are dropped (see the
counterexample). -/
theorem claim_C1_amended (ms ns : List (List Nat)) :
    bufRun (ms.map BufEvent.clientMessage ++
        BufEvent.backendOpenEvt :: ns.map BufEvent.clientMessage) =
      { backendReady := true, messageBuffer := [], backendSends := ms ++ ns } := by
  unfold bufRun
  rw [List.foldl_append, bufFold_notReady]
  simp [bufStep, bufFold_ready]

/-- C2: the Framer codec of the opcode-framed relay satisfies the claimed
contract: `wrap p` is the single byte 0x02 followed by `p` unchanged, for
every payload; unwrapping a non-empty frame whose first byte is 0x01 yields
exactly the frame with its first byte removed, as a backend write; and the
concrete scenario holds — backend bytes 0xFF 0x00 reach the client as the
frame 0x02 0xFF 0x00. -/
theorem claim_C2_framer_codec :
    (∀ p : List Nat, wrap p = 0x02 :: p) ∧
    (∀ rest : List Nat, handleClientMessage (0x01 :: rest) = .write rest) ∧
    wrap [0xFF, 0x00] = [0x02, 0xFF, 0x00] ∧
    (run [SessionEvent.backendConnect, SessionEvent.backendData [0xFF, 0x00]]).clientSends
        = [[0x02, 0xFF, 0x00]] := by
  refine ⟨fun p => rfl, fun rest => ?_, rfl, rfl⟩
  simp [handleClientMessage]

/-- C3 counterexample: the claim says an empty client frame, like any frame
with a wrong opcode, has its violation reported (logged).  In the code the
whole handler body sits under `if (Buffer.isBuffer(message) && message.length > 0)`
with no else branch (`src/unnamed/part_002` lines 129-139), so an empty
frame is skipped silently: after receiving it the warning counter is still
zero and no log line is produced, refuting the reported-violation part of
the claim at the concrete input of an empty frame. -/
theorem claim_C3_counterexample :
    (run [SessionEvent.backendConnect, SessionEvent.clientMessage []]).warnCount = 0 ∧
    handleClientMessage [] = .ignored :=
  ⟨rfl, rfl⟩

/-- C3 amended: an empty client frame is silently discarded — the session
state, including the backend write sequence and the client socket state, is
exactly unchanged, with no report and no exception; a non-empty client
frame whose opcode is not 0x01 is discarded with exactly one warning logged
and no other state change — nothing is written to the backend and the
session remains open in its current state. -/
theorem claim_C3_amended (s : Session) (op : Nat) (rest : List Nat) :
    step s (.clientMessage []) = s ∧
    (op ≠ 0x01 → s.backendConnected = true →
      step s (.clientMessage (op :: rest)) = { s with warnCount := s.warnCount + 1 }) := by
  constructor
  · simp [step, handleClientMessage]
  · intro hop hconn
    simp [step, hconn, handleClientMessage, hop]

/-- Witness for the amended C3 at a connected session, the empty frame and
the frame 0x02 0x03. -/
theorem claim_C3_amended_witness :
    step (run [SessionEvent.backendConnect]) (SessionEvent.clientMessage [])
        = run [SessionEvent.backendConnect] ∧
    step (run [SessionEvent.backendConnect]) (SessionEvent.clientMessage [2, 3])
        = { run [SessionEvent.backendConnect] with
              warnCount := (run [SessionEvent.backendConnect]).warnCount + 1 } :=
  ⟨(claim_C3_amended (run [SessionEvent.backendConnect]) 2 [3]).1,
   (claim_C3_amended (run [SessionEvent.backendConnect]) 2 [3]).2 (by decide) (by rfl)⟩

/-- C4: over every event trace, `backendTcp.destroy()` and
`clientWs.close(...)` are each called at most once (no double release); any
client close or error event leaves the backend socket destroyed, and any
backend close or error event leaves the client socket out of the OPEN state
— so closing one side always results in the counterpart being
closed/destroyed, whichever side closed first and whether or not it closed
with an error; each of the four close/error events is idempotent, so a
duplicate close event for the same side is a state no-op; and in the
concrete relaying scenario a client close destroys the backend in exactly
one `destroy()` call. -/
theorem claim_C4_counterpart_closed_once (events : List SessionEvent) (s : Session)
    (c c' : Nat) (r r' : String) :
    (run events).backendDestroyCalls ≤ 1 ∧
    (run events).clientCloseCalls ≤ 1 ∧
    ((∃ c0 r0, SessionEvent.clientClose c0 r0 ∈ events) ∨ SessionEvent.clientError ∈ events →
      (run events).backendDestroyed = true) ∧
    (SessionEvent.backendClose ∈ events ∨ SessionEvent.backendError ∈ events →
      (run events).clientState ≠ .OPEN) ∧
    step (step s (.clientClose c r)) (.clientClose c' r') = step s (.clientClose c r) ∧
    step (step s .clientError) .clientError = step s .clientError ∧
    step (step s .backendClose) .backendClose = step s .backendClose ∧
    step (step s .backendError) .backendError = step s .backendError ∧
    (run [SessionEvent.backendConnect, SessionEvent.clientClose c r]).backendDestroyCalls = 1 := by
  have hctr := countersOK_foldl (s := initSession) events
    (by constructor <;> simp [countersOK, initSession])
  refine ⟨le_trans hctr.1 ?_, le_trans hctr.2 ?_,
    fun h => destroyed_of_clientTerminal events h,
    fun h => notOpen_of_backendTerminal events h,
    step_clientClose_idem s c c' r r', step_clientError_idem s,
    step_backendClose_idem s, step_backendError_idem s, rfl⟩
  · split <;> omega
  · split <;> omega

/-- Witness for C4 at the trace backend-connect then client-close. -/
theorem claim_C4_witness :
    (run [SessionEvent.backendConnect, SessionEvent.clientClose 1000 "bye"]).backendDestroyCalls ≤ 1 ∧
    (run [SessionEvent.backendConnect, SessionEvent.clientClose 1000 "bye"]).backendDestroyed = true :=
  ⟨(claim_C4_counterpart_closed_once
      [SessionEvent.backendConnect, SessionEvent.clientClose 1000 "bye"]
      initSession 1000 1000 "bye" "bye").1,
   (claim_C4_counterpart_closed_once
      [SessionEvent.backendConnect, SessionEvent.clientClose 1000 "bye"]
      initSession 1000 1000 "bye" "bye").2.2.1
        (Or.inl ⟨1000, "bye", by simp⟩)⟩

/-- C5: when the backend side of a session terminates while the client
socket is still open, a backend transport error closes the client socket
with the internal-error close code 1011 and the human-readable reason
string, while a clean backend close closes it with the normal close code
1000 and its reason string. -/
theorem claim_C5_close_code_mapping :
    CLOSE_NORMAL = 1000 ∧ CLOSE_INTERNAL_ERROR = 1011 ∧
    ∀ s : Session, s.clientState = .OPEN →
      (step s .backendError).clientCloseCode
          = some (CLOSE_INTERNAL_ERROR, "Backend connection error.") ∧
      (step s .backendClose).clientCloseCode
          = some (CLOSE_NORMAL, "Backend server disconnected.") := by
  refine ⟨rfl, rfl, fun s hs => ⟨?_, ?_⟩⟩ <;> simp [step, hs]

/-- Witness for C5 at the initial session state. -/
theorem claim_C5_witness :
    (step initSession SessionEvent.backendError).clientCloseCode
        = some (CLOSE_INTERNAL_ERROR, "Backend connection error.") ∧
    (step initSession SessionEvent.backendClose).clientCloseCode
        = some (CLOSE_NORMAL, "Backend server disconnected.") :=
  ⟨(claim_C5_close_code_mapping.2.2 initSession rfl).1,
   (claim_C5_close_code_mapping.2.2 initSession rfl).2⟩

/-- C6: the pre-flight probe is awaited exactly once per startup, with no
retry; the listening port is bound exactly when the probe resolves; the
timeout path (5000 ms) actively destroys the in-flight probe socket and
rejects; and a backend that refuses connections makes startup fail fatally
with the connection-refused reason, the listening port never bound. -/
theorem claim_C6_preflight_probe :
    PROBE_TIMEOUT_MS = 5000 ∧
    (∀ o : ProbeOutcome, (startServer o).probeCalls = 1) ∧
    (∀ o : ProbeOutcome, (startServer o).bound = true ↔ (checkBackendServer o).promise = .ok ()) ∧
    (checkBackendServer .timedOut).socketDestroyed = true ∧
    (checkBackendServer .timedOut).promise = .error ("Connection timed out after 5 seconds.") ∧
    startServer .refused = { probeCalls := 1, bound := false, fatalExit := true } ∧
    (checkBackendServer .refused).promise
        = .error ("Connection refused. Is the server running? Is the IP/port correct?") := by
  refine ⟨rfl, fun o => ?_, fun o => ?_, rfl, rfl, rfl, rfl⟩
  · cases o <;> rfl
  · cases o <;> simp [startServer, checkBackendServer]

/-- C7: the heartbeat sweep runs with period 30000 ms; on each sweep every
live client with `isAlive = false` is terminated and removed from the live
set, and every other client has its flag cleared to false and is pinged; a
pong event sets the flag back to true; consequently a client that answers
no ping across two consecutive sweeps is terminated and removed, while one
that pongs in between survives. -/
theorem claim_C7_heartbeat :
    HEARTBEAT_INTERVAL = 30000 ∧
    (∀ cs : List (Nat × Bool),
      (sweep cs).survivors = (cs.filter (fun c => c.2)).map (fun c => (c.1, false)) ∧
      (sweep cs).terminated = (cs.filter (fun c => !c.2)).map (fun c => c.1) ∧
      (sweep cs).pinged = (cs.filter (fun c => c.2)).map (fun c => c.1)) ∧
    (∀ s : Session, (step s .pong).isAlive = true) ∧
    (∀ id : Nat,
      sweep [(id, true)] = { survivors := [(id, false)], terminated := [], pinged := [id] } ∧
      sweep (sweep [(id, true)]).survivors
          = { survivors := [], terminated := [id], pinged := [] } ∧
      sweep (pongHandler (sweep [(id, true)]).survivors id)
          = { survivors := [(id, false)], terminated := [], pinged := [id] }) := by
  refine ⟨rfl, sweep_spec, fun s => by simp [step], fun id => ⟨?_, ?_, ?_⟩⟩ <;>
    simp [sweep, pongHandler]

/-- C8: forwarding to a socket that is not open drops the data without any
write and without any exception (the handlers are total): a backend data
event while the client socket is out of OPEN leaves the client send
sequence unchanged (`src/unnamed/part_002` lines 143-151); a client message
while the backend socket is destroyed leaves the backend write sequence
unchanged (line 132); and in the `src/unnamed/part_000` variant a client
message while the backend is not open is dropped and the drop is logged
(lines 96-103). -/
theorem claim_C8_nonopen_write_dropped (s : Session) (d m : List Nat)
    (sends : List (List Nat)) :
    (s.clientState ≠ .OPEN → (step s (.backendData d)).clientSends = s.clientSends) ∧
    (s.backendDestroyed = true → (step s (.clientMessage m)).backendWrites = s.backendWrites) ∧
    forwardClientMessage false sends m = (sends, true) := by
  refine ⟨fun h => ?_, fun h => ?_, rfl⟩
  · simp only [step]; (repeat' split) <;> simp_all
  · simp only [step]; (repeat' split) <;> simp_all

/-- Witness for C8 at a session whose backend has closed (client CLOSING,
backend destroyed). -/
theorem claim_C8_witness :
    (step (run [SessionEvent.backendConnect, SessionEvent.backendClose])
        (SessionEvent.backendData [5])).clientSends
      = (run [SessionEvent.backendConnect, SessionEvent.backendClose]).clientSends ∧
    (step (run [SessionEvent.backendConnect, SessionEvent.backendClose])
        (SessionEvent.clientMessage [1, 7])).backendWrites
      = (run [SessionEvent.backendConnect, SessionEvent.backendClose]).backendWrites ∧
    forwardClientMessage false [] [9] = ([], true) :=
  ⟨(claim_C8_nonopen_write_dropped
      (run [SessionEvent.backendConnect, SessionEvent.backendClose]) [5] [1, 7] []).1 (by decide),
   (claim_C8_nonopen_write_dropped
      (run [SessionEvent.backendConnect, SessionEvent.backendClose]) [5] [1, 7] []).2.1 (by rfl),
   (claim_C8_nonopen_write_dropped
      (run [SessionEvent.backendConnect, SessionEvent.backendClose]) [5] [1, 7] []).2.2⟩

/-- C9 counterexample: the claim says shutdown asks every live session to
transition to Closing, waits at most a drain timeout for the live set to
empty, and forcibly terminates any session still open past the deadline.
The `gracefulShutdown` handler of `src/index.js` lines 191-200 only clears
the heartbeat timer and closes the WebSocket and HTTP servers: with a live
session present it asks no session to close and force-terminates nothing —
there is no drain deadline at all. -/
theorem claim_C9_counterexample :
    (gracefulShutdown ("SIGTERM") [7]).sessionsAskedToClose = [] ∧
    (gracefulShutdown ("SIGTERM") [7]).forcedTerminations = [] :=
  ⟨rfl, rfl⟩

/-- C9 amended: on a graceful termination signal the gateway clears the
heartbeat timer, stops accepting new inbound connections by closing its
WebSocket and HTTP servers, and exits once they report closed; it does not
ask live sessions to close, has no bounded drain wait, and never forcibly
terminates a lingering session. -/
theorem claim_C9_amended (signal : String) (live : List Nat) :
    gracefulShutdown signal live =
      { heartbeatCleared := true
        acceptingStopped := true
        sessionsAskedToClose := []
        forcedTerminations := []
        exited := true } :=
  rfl

/-- C10: a client close or error event destroys the backend socket from any
session state — in particular while the session is still Connecting with
the backend connection attempt in flight, aborting the attempt (in the
concrete trace the backend is destroyed while never having connected); over
any trace containing a client close or error the backend socket ends
destroyed, and whenever the client socket has reached CLOSED the backend
socket is destroyed, so no backend connection or connection attempt
outlives its client socket. -/
theorem claim_C10_backend_never_outlives_client (events : List SessionEvent)
    (s : Session) (c : Nat) (r : String) :
    (step s (.clientClose c r)).backendDestroyed = true ∧
    (step s .clientError).backendDestroyed = true ∧
    ((∃ c0 r0, SessionEvent.clientClose c0 r0 ∈ events) ∨ SessionEvent.clientError ∈ events →
      (run events).backendDestroyed = true) ∧
    ((run events).clientState = .CLOSED → (run events).backendDestroyed = true) ∧
    (run [SessionEvent.clientClose 1001 "going away"]).backendDestroyed = true ∧
    (run [SessionEvent.clientClose 1001 "going away"]).backendConnected = false := by
  refine ⟨step_clientClose_destroyed s c r, step_clientError_destroyed s,
    fun h => destroyed_of_clientTerminal events h,
    fun h => closedImpDestroyed_foldl events ?_ h, rfl, rfl⟩
  simp [initSession]

/-- Witness for C10 at the trace of a lone client close while Connecting. -/
theorem claim_C10_witness :
    (run [SessionEvent.clientClose 1001 "going away"]).backendDestroyed = true :=
  (claim_C10_backend_never_outlives_client
      [SessionEvent.clientClose 1001 "going away"] initSession 1001 ("going away")).2.2.1
    (Or.inl ⟨1001, "going away", by simp⟩)

end Proxy
